import Mathlib

/-!
Verification of the football-ai prediction service (src/ai/service.py,
src/ai/training.py) against its natural-language specification.

Numeric values flowing through the pipeline are modelled as rationals
(`ℚ`); Python ints that only ever feed subtraction are modelled as `Int`
or `ℚ` as typed in the source.
-/

namespace FootballAI

/-! ## Curve downsampling (training.py, `_downsample`)

`_downsample(values, max_points=30)` in training.py:
```
if len(values) <= max_points: return [float(v) for v in values]
step = max(1, len(values) // max_points)
sampled = values[::step]
if sampled[-1] != values[-1]: sampled.append(values[-1])
return [float(v) for v in sampled]
```
`strideSample step l` is Python's `l[::step]` for `step ≥ 1`. -/

def strideSample (step : Nat) : List ℚ → List ℚ
  | [] => []
  | x :: xs => x :: strideSample step (xs.drop (step - 1))
termination_by l => l.length
decreasing_by
  simp only [List.length_drop, List.length_cons]
  omega

def downsample (values : List ℚ) : List ℚ :=
  if values.length ≤ 30 then values
  else
    let step := max 1 (values.length / 30)
    let sampled := strideSample step values
    if sampled.getLast? = values.getLast? then sampled
    else sampled ++ [(values.getLast?).getD 0]

theorem strideSample_nil (step : Nat) : strideSample step [] = [] := by
  simp [strideSample]

theorem strideSample_cons (step : Nat) (x : ℚ) (xs : List ℚ) :
    strideSample step (x :: xs) = x :: strideSample step (xs.drop (step - 1)) := by
  simp [strideSample]

theorem strideSample_one (l : List ℚ) : strideSample 1 l = l := by
  induction l with
  | nil => simp [strideSample]
  | cons x xs ih => simp [strideSample, ih]

theorem strideSample_length (step : Nat) (hs : 1 ≤ step) (l : List ℚ) :
    (strideSample step l).length = (l.length + step - 1) / step := by
  induction l using strideSample.induct step with
  | case1 =>
    simp only [strideSample, List.length_nil, Nat.zero_add]
    exact (Nat.div_eq_of_lt (by omega)).symm
  | case2 x xs ih =>
    rw [strideSample_cons]
    simp only [List.length_cons]
    rw [ih]
    simp only [List.length_drop]
    have h2 : xs.length + 1 + step - 1 = xs.length + step := by omega
    rw [h2, Nat.add_div_right xs.length (show 0 < step by omega)]
    rcases le_or_lt step (xs.length + 1) with h | h
    · have h1 : xs.length - (step - 1) + step - 1 = xs.length := by omega
      rw [h1]
    · have h1 : xs.length - (step - 1) = 0 := by omega
      rw [h1]
      have e1 : (0 + step - 1) / step = 0 := Nat.div_eq_of_lt (by omega)
      have e2 : xs.length / step = 0 := Nat.div_eq_of_lt (by omega)
      omega

theorem strideSample_subset (step : Nat) (l : List ℚ) :
    ∀ x ∈ strideSample step l, x ∈ l := by
  induction l using strideSample.induct step with
  | case1 => simp [strideSample]
  | case2 x xs ih =>
    intro y hy
    rw [strideSample_cons] at hy
    rcases List.mem_cons.mp hy with h | h
    · simp [h]
    · exact List.mem_cons_of_mem x (List.drop_subset _ xs (ih y h))

theorem strideSample_ne_nil (step : Nat) (x : ℚ) (xs : List ℚ) :
    strideSample step (x :: xs) ≠ [] := by
  rw [strideSample_cons]; simp

theorem downsample_eq_self_of_le59 (values : List ℚ) (h : values.length ≤ 59) :
    downsample values = values := by
  unfold downsample
  by_cases h30 : values.length ≤ 30
  · simp [h30]
  · simp only [if_neg h30]
    have hdiv : values.length / 30 = 1 := by omega
    have hmax : max 1 (values.length / 30) = 1 := by omega
    rw [hmax, strideSample_one]
    simp

theorem downsample_getLast (values : List ℚ) :
    (downsample values).getLast? = values.getLast? := by
  unfold downsample
  by_cases h30 : values.length ≤ 30
  · simp [h30]
  · simp only [if_neg h30]
    by_cases heq :
        (strideSample (max 1 (values.length / 30)) values).getLast? = values.getLast?
    · simp only [if_pos heq]
      exact heq
    · simp only [if_neg heq]
      have hne : values ≠ [] := by
        intro hnil
        rw [hnil] at h30
        simp at h30
      obtain ⟨v, hv⟩ : ∃ v, values.getLast? = some v := by
        cases hvl : values.getLast? with
        | none => exact absurd (List.getLast?_eq_none_iff.mp hvl) hne
        | some v => exact ⟨v, rfl⟩
      rw [List.getLast?_concat, hv]
      simp [hv]

theorem downsample_subset (values : List ℚ) :
    ∀ x ∈ downsample values, x ∈ values := by
  unfold downsample
  by_cases h30 : values.length ≤ 30
  · simp [h30]
  · simp only [if_neg h30]
    by_cases heq :
        (strideSample (max 1 (values.length / 30)) values).getLast? = values.getLast?
    · simp only [if_pos heq]
      exact strideSample_subset _ values
    · simp only [if_neg heq]
      intro x hx
      rcases List.mem_append.mp hx with h | h
      · exact strideSample_subset _ values x h
      · have hxe : x = (values.getLast?).getD 0 := by simpa using h
        have hne : values ≠ [] := by
          intro hnil
          rw [hnil] at h30
          simp at h30
        obtain ⟨v, hv⟩ : ∃ v, values.getLast? = some v := by
          cases hvl : values.getLast? with
          | none => exact absurd (List.getLast?_eq_none_iff.mp hvl) hne
          | some v => exact ⟨v, rfl⟩
        rw [hxe, hv]
        simp only [Option.getD_some]
        exact List.mem_of_mem_getLast? (by rw [hv]; exact rfl)

theorem downsample_length_le (values : List ℚ) :
    (downsample values).length ≤ 59 := by
  by_cases h59 : values.length ≤ 59
  · rw [downsample_eq_self_of_le59 values h59]
    exact h59
  · unfold downsample
    have h30 : ¬ values.length ≤ 30 := by omega
    simp only [if_neg h30]
    have hmax : max 1 (values.length / 30) = values.length / 30 := by omega
    rw [hmax]
    have hs2 : 2 ≤ values.length / 30 := by omega
    have hlen : (strideSample (values.length / 30) values).length =
        (values.length + values.length / 30 - 1) / (values.length / 30) :=
      strideSample_length _ (by omega) values
    have hbound : (values.length + values.length / 30 - 1) / (values.length / 30) ≤ 45 := by
      have h1 : values.length + values.length / 30 - 1 < (values.length / 30) * 46 := by
        omega
      have := Nat.div_lt_of_lt_mul h1
      omega
    by_cases heq :
        (strideSample (values.length / 30) values).getLast? = values.getLast?
    · simp only [if_pos heq]
      omega
    · simp only [if_neg heq]
      rw [List.length_append]
      simp only [List.length_cons, List.length_nil]
      omega

/-! Curve entries as stored in the metrics report (training.py, `roc_data` /
`pr_data`): the raw per-class curve arrays come from the evaluation library
and are stored after `_downsample`. -/

structure RocEntry where
  fpr : List ℚ
  tpr : List ℚ
  auc : ℚ

def rocEntry (fpr tpr : List ℚ) (aucVal : ℚ) : RocEntry :=
  { fpr := downsample fpr, tpr := downsample tpr, auc := aucVal }

structure PrEntry where
  precision : List ℚ
  recallSeq : List ℚ

def prEntry (p r : List ℚ) : PrEntry :=
  { precision := downsample p, recallSeq := downsample r }

theorem rocEntry_stores_downsampled (f t : List ℚ) (a : ℚ) :
    (rocEntry f t a).fpr = downsample f ∧ (rocEntry f t a).tpr = downsample t :=
  ⟨rfl, rfl⟩

theorem prEntry_stores_downsampled (p r : List ℚ) :
    (prEntry p r).precision = downsample p ∧ (prEntry p r).recallSeq = downsample r :=
  ⟨rfl, rfl⟩

def c1Input : List ℚ := (List.range 31).map (fun n => (n : ℚ))

theorem c1Input_length : c1Input.length = 31 := rfl

/-- **C1** counterexample: on a curve with 31 points the stride is
`max 1 (31 / 30) = 1`, so `_downsample` keeps all 31 points — more than the
30 the claim allows. -/
theorem C1_counterexample :
    30 < c1Input.length ∧ (downsample c1Input).length = 31 := by
  constructor
  · rw [c1Input_length]
    omega
  · rw [downsample_eq_self_of_le59 c1Input (by rw [c1Input_length]; omega)]
    exact c1Input_length

/-- **C1** (amended): each stored curve point sequence has at most 59 (not 30)
points; it is the stride-`len/30` subsample of the input with the final input
point forced in, so its final element equals the final element of the input,
every stored point is an input point, and inputs of at most 30 points are
stored unchanged. -/
theorem C1_downsample_bounded (values : List ℚ) :
    (downsample values).length ≤ 59 ∧
    (downsample values).getLast? = values.getLast? ∧
    (∀ x ∈ downsample values, x ∈ values) ∧
    (values.length ≤ 30 → downsample values = values) ∧
    (30 < values.length →
      downsample values = strideSample (values.length / 30) values ∨
      downsample values =
        strideSample (values.length / 30) values ++ [(values.getLast?).getD 0]) := by
  refine ⟨downsample_length_le values, downsample_getLast values,
    downsample_subset values, ?_, ?_⟩
  · intro h
    unfold downsample
    simp [h]
  · intro h
    unfold downsample
    have h30 : ¬ values.length ≤ 30 := by omega
    simp only [if_neg h30]
    have hmax : max 1 (values.length / 30) = values.length / 30 := by omega
    rw [hmax]
    by_cases heq :
        (strideSample (values.length / 30) values).getLast? = values.getLast?
    · left
      simp only [if_pos heq]
    · right
      simp only [if_neg heq]

/-- Witness for **C1**: the amended statement applied to the concrete
31-point curve. -/
theorem C1_downsample_bounded_witness :
    downsample c1Input = strideSample 1 c1Input ∨
    downsample c1Input = strideSample 1 c1Input ++ [(c1Input.getLast?).getD 0] := by
  have h := (C1_downsample_bounded c1Input).2.2.2.2 (by rw [c1Input_length]; omega)
  rw [c1Input_length] at h
  exact h

/-! ## Persisted documents and per-sport state (service.py)

`read_json` returns `None` both when the file is missing and when its content
fails to decode (`json.JSONDecodeError`); `JsonDoc` distinguishes the three
on-disk situations and `read_json` collapses the first two to `none`. -/

inductive JsonDoc (α : Type) where
  | missing : JsonDoc α
  | corrupt : JsonDoc α
  | valid : α → JsonDoc α
deriving DecidableEq

def read_json {α : Type} : JsonDoc α → Option α
  | .missing => none
  | .corrupt => none
  | .valid a => some a

/-- The per-sport files of `sport_paths`: the two per-algorithm model
artifacts, the legacy single artifact (`paths["model"]`), the active-model
selector document (a JSON object whose `"model"` key may be absent), the
single-model metrics document and the comparison document. `α` is the opaque
model-artifact type, `μ` the opaque metrics-document type. -/
structure SportFiles (α μ : Type) where
  logistic : Option α
  rf : Option α
  legacy : Option α
  active : JsonDoc (Option String)
  metrics : JsonDoc μ
  compare : JsonDoc (List (String × μ))

/-- The in-memory `state[sport]` dictionary of service.py. -/
structure SportMem (α μ : Type) where
  active_model : String
  model : Option α
  metrics_cache : Option μ
  compare_cache : Option (List (String × μ))

structure SportState (α μ : Type) where
  files : SportFiles α μ
  mem : SportMem α μ

/-- `load_active`: `active.get("model", "logistic") if active else "logistic"`
(a decoded object without a `"model"` key, including the falsy empty object,
also yields `"logistic"`). -/
def load_active {α μ : Type} (s : SportState α μ) : SportState α μ :=
  let name :=
    match read_json s.files.active with
    | some m => m.getD "logistic"
    | none => "logistic"
  { s with mem := { s.mem with active_model := name } }

/-- `write_active`: persist `{"model": name}` and update the in-memory state. -/
def write_active {α μ : Type} (s : SportState α μ) (name : String) : SportState α μ :=
  { s with
    files := { s.files with active := .valid (some name) },
    mem := { s.mem with active_model := name } }

/-- `load_model`: pick the per-algorithm artifact for the active algorithm;
if that file does not exist fall back to the legacy `paths["model"]` artifact;
if that does not exist either, no model is loaded. -/
def load_model {α μ : Type} (s : SportState α μ) : SportState α μ :=
  let primary :=
    if s.mem.active_model = "logistic" then s.files.logistic else s.files.rf
  let chosen :=
    match primary with
    | some m => some m
    | none => s.files.legacy
  { s with mem := { s.mem with model := chosen } }

/-- `load_metrics`: prefer the active algorithm's entry of the comparison
document, else the single-model metrics document. -/
def load_metrics {α μ : Type} (s : SportState α μ) : SportState α μ :=
  let cache :=
    match read_json s.files.compare with
    | some c =>
      match c.lookup s.mem.active_model with
      | some m => some m
      | none => read_json s.files.metrics
    | none => read_json s.files.metrics
  { s with mem := { s.mem with metrics_cache := cache } }

def load_compare {α μ : Type} (s : SportState α μ) : SportState α μ :=
  { s with mem := { s.mem with compare_cache := read_json s.files.compare } }

/-- `model_select` (POST /model/select): normalize the requested algorithm to
`"logistic"` unless it is `"logistic"` or `"rf"`, persist it, reload model and
metrics. It never fails on an unknown algorithm name. -/
def model_select {α μ : Type} (s : SportState α μ) (model : String) : SportState α μ :=
  let name := if model = "logistic" ∨ model = "rf" then model else "logistic"
  load_metrics (load_model (write_active s name))

/-- `model_active` (GET /model/active): report the in-memory active algorithm. -/
def model_active {α μ : Type} (s : SportState α μ) : String :=
  s.mem.active_model

/-! ## Prediction with a loaded model (service.py, `predict`, lines 345-361)

`prob_map = dict(zip(classes, probs))`; `prediction = max(prob_map,
key=prob_map.get)` (first key attaining the maximum, in class order);
`score = prob_map.get("home_win", 0.0) - prob_map.get("away_win", 0.0)`. -/

def argmaxPair : List (String × ℚ) → Option (String × ℚ)
  | [] => none
  | p :: rest =>
    match argmaxPair rest with
    | none => some p
    | some q => if q.2 > p.2 then some q else some p

def lookupProb (m : List (String × ℚ)) (k : String) : ℚ :=
  (m.lookup k).getD 0

structure ModelPredictionResult where
  prediction : String
  confidence : ℚ
  score : ℚ
  probs : List (String × ℚ)
  model : String

/-- The model branch of `predict`. `classes`/`probs` are the fitted model's
`classes_` and `predict_proba` row (a fitted classifier has at least one
class, so the empty-`prob_map` case of Python's `max` is unreachable; it is
mapped to the empty string here). -/
def predict_with_model (classes : List String) (probs : List ℚ)
    (activeModel : String) : ModelPredictionResult :=
  let pm := classes.zip probs
  let best := argmaxPair pm
  { prediction := (best.map Prod.fst).getD "",
    confidence := (best.map Prod.snd).getD 0,
    score := lookupProb pm "home_win" - lookupProb pm "away_win",
    probs := pm,
    model := activeModel }

theorem lookup_zip_eq_none (classes : List String) (probs : List ℚ) (k : String)
    (h : k ∉ classes) : (classes.zip probs).lookup k = none := by
  induction classes generalizing probs with
  | nil => simp
  | cons c cs ih =>
    cases probs with
    | nil => simp
    | cons p ps =>
      simp only [List.zip_cons_cons, List.lookup]
      have hk : k ≠ c := fun he => h (he ▸ List.mem_cons_self c cs)
      have hbeq : (k == c) = false := beq_eq_false_iff_ne.mpr hk
      simp only [hbeq]
      exact ih ps (fun hm => h (List.mem_cons_of_mem c hm))

/-- **C2** counterexample: a model whose label set lacks "away_win" (e.g.
trained on data with no away wins) still returns a nonzero score: with
classes ["draw","home_win"] and probabilities (0.3, 0.7) the score is 0.7,
not the 0 the claim requires when a class is absent. -/
theorem C2_counterexample :
    "away_win" ∉ (["draw", "home_win"] : List String) ∧
    (predict_with_model ["draw", "home_win"] [3/10, 7/10] "logistic").score = 7/10 := by
  refine ⟨by decide, ?_⟩
  simp only [predict_with_model, lookupProb]
  simp [List.lookup]

/-- **C2** (amended): the score is `prob_map.get("home_win", 0.0) −
prob_map.get("away_win", 0.0)`: the difference of the two probabilities when
both classes are in the label set, with an absent class contributing 0 to its
own term only — so the score is 0 exactly when both classes are absent, and
equals ±(the present class's probability) when exactly one is absent. -/
theorem C2_predict_score (classes : List String) (probs : List ℚ)
    (active : String) (ph pa : ℚ) :
    ((classes.zip probs).lookup "home_win" = some ph →
      (classes.zip probs).lookup "away_win" = some pa →
      (predict_with_model classes probs active).score = ph - pa) ∧
    ("home_win" ∉ classes →
      (classes.zip probs).lookup "away_win" = some pa →
      (predict_with_model classes probs active).score = -pa) ∧
    ("away_win" ∉ classes →
      (classes.zip probs).lookup "home_win" = some ph →
      (predict_with_model classes probs active).score = ph) ∧
    ("home_win" ∉ classes → "away_win" ∉ classes →
      (predict_with_model classes probs active).score = 0) := by
  refine ⟨?_, ?_, ?_, ?_⟩ <;> intro h1 h2
  · simp [predict_with_model, lookupProb, h1, h2]
  · simp [predict_with_model, lookupProb,
      lookup_zip_eq_none classes probs "home_win" h1, h2]
  · simp [predict_with_model, lookupProb,
      lookup_zip_eq_none classes probs "away_win" h1, h2]
  · simp [predict_with_model, lookupProb,
      lookup_zip_eq_none classes probs "home_win" h1,
      lookup_zip_eq_none classes probs "away_win" h2]

/-- Witness for **C2**: full three-class label set, probabilities
(0.5, 0.25, 0.25) in class order away/draw/home, score 0.25 − 0.5. -/
theorem C2_predict_score_witness :
    (predict_with_model ["away_win", "draw", "home_win"] [1/2, 1/4, 1/4] "rf").score
      = 1/4 - 1/2 :=
  (C2_predict_score ["away_win", "draw", "home_win"] [1/2, 1/4, 1/4] "rf"
    (1/4) (1/2)).1 (by simp [List.lookup]) (by simp [List.lookup])

/-! ## Concrete states used by the witnesses and counterexamples below.
Artifacts and metrics documents are represented by `Nat` tags. -/

def emptyFiles : SportFiles Nat Nat :=
  { logistic := none, rf := none, legacy := none,
    active := .missing, metrics := .missing, compare := .missing }

/-- The initial in-memory dictionary of service.py (`state = {...}`). -/
def bootMem : SportMem Nat Nat :=
  { active_model := "logistic", model := none,
    metrics_cache := none, compare_cache := none }

def freshState : SportState Nat Nat :=
  { files := emptyFiles, mem := bootMem }

/-- A sport whose "rf" model was never trained, but whose legacy single
artifact (`{sport}_model.joblib`, written by /train) exists, with "rf"
selected as active. -/
def legacyOnlyState : SportState Nat Nat :=
  { files := { emptyFiles with legacy := some 7 },
    mem := { bootMem with active_model := "rf" } }

/-- **C3** counterexample: the "rf" artifact was never trained (`rf = none`),
yet loading does not yield no-model/NotFound — it returns the legacy
artifact written by a previous `/train` run. -/
theorem C3_counterexample :
    legacyOnlyState.files.rf = none ∧
    (load_model legacyOnlyState).mem.model = some 7 :=
  ⟨rfl, rfl⟩

/-- **C3** (amended): loading yields no model only when both the active
algorithm's per-algorithm artifact and the legacy `{sport}_model.joblib`
artifact are absent; when the per-algorithm artifact is missing the legacy
artifact (whatever algorithm produced it) is returned instead of failing. -/
theorem C3_load_model_fallback {α μ : Type} (s : SportState α μ) :
    ((load_model s).mem.model = none ↔
      (if s.mem.active_model = "logistic" then s.files.logistic else s.files.rf) = none
        ∧ s.files.legacy = none) ∧
    ((if s.mem.active_model = "logistic" then s.files.logistic else s.files.rf) = none →
      (load_model s).mem.model = s.files.legacy) ∧
    (∀ m, (if s.mem.active_model = "logistic" then s.files.logistic else s.files.rf)
        = some m → (load_model s).mem.model = some m) := by
  have hmodel : (load_model s).mem.model =
      (match (if s.mem.active_model = "logistic" then s.files.logistic else s.files.rf) with
       | some m => some m
       | none => s.files.legacy) := rfl
  cases hp : (if s.mem.active_model = "logistic" then s.files.logistic else s.files.rf) with
  | none =>
    rw [hp] at hmodel
    simp only [] at hmodel
    refine ⟨?_, fun _ => hmodel, ?_⟩
    · rw [hmodel]
      simp
    · intro m hm
      exact absurd hm (by simp)
  | some m =>
    rw [hp] at hmodel
    simp only [] at hmodel
    refine ⟨?_, ?_, ?_⟩
    · rw [hmodel]
      simp
    · intro hc
      exact absurd hc (by simp)
    · intro m2 hm2
      exact hmodel.trans hm2

/-- Witness for **C3**: the amended statement at the concrete legacy-only
state: the missing "rf" artifact makes loading return the legacy artifact. -/
theorem C3_load_model_fallback_witness :
    (load_model legacyOnlyState).mem.model = legacyOnlyState.files.legacy :=
  (C3_load_model_fallback legacyOnlyState).2.1 rfl

/-- **C4** counterexample: selecting the unsupported algorithm "svm" does not
fail with InvalidAlgorithmError; it persists the normalized selection
"logistic" into the previously missing active-selector document. -/
theorem C4_counterexample :
    ¬ ("svm" = "logistic" ∨ "svm" = "rf") ∧
    freshState.files.active = JsonDoc.missing ∧
    (model_select freshState "svm").files.active = JsonDoc.valid (some "logistic") :=
  ⟨by decide, rfl, rfl⟩

/-- **C4** (amended): for every algorithm identifier outside
{"logistic","rf"} the set-active operation does not fail; the identifier is
normalized to "logistic" and that selection is persisted (and mirrored in
memory). -/
theorem C4_model_select_normalizes {α μ : Type} (s : SportState α μ) (m : String)
    (h1 : m ≠ "logistic") (h2 : m ≠ "rf") :
    (model_select s m).files.active = JsonDoc.valid (some "logistic") ∧
    (model_select s m).mem.active_model = "logistic" := by
  unfold model_select load_metrics load_model write_active
  simp [h1, h2]

/-- Witness for **C4**: selecting "svm" on the freshly booted state. -/
theorem C4_model_select_normalizes_witness :
    (model_select freshState "svm").files.active = JsonDoc.valid (some "logistic") ∧
    (model_select freshState "svm").mem.active_model = "logistic" :=
  C4_model_select_normalizes freshState "svm" (by decide) (by decide)

/-- **C7**: selecting "rf" then reading the active algorithm returns "rf"
(both from the in-memory state and after re-reading the persisted selector),
while selecting an unsupported identifier leaves the active algorithm
"logistic" — normalized, not rejected. -/
theorem C7_select_then_active {α μ : Type} (s : SportState α μ) (m : String) :
    model_active (model_select s "rf") = "rf" ∧
    model_active (load_active (model_select s "rf")) = "rf" ∧
    (m ≠ "logistic" → m ≠ "rf" → model_active (model_select s m) = "logistic") := by
  refine ⟨?_, ?_, ?_⟩
  · simp [model_select, model_active, load_metrics, load_model, write_active]
  · simp [model_select, model_active, load_active, load_metrics, load_model,
      write_active, read_json]
  · intro h1 h2
    simp [model_select, model_active, load_metrics, load_model, write_active, h1, h2]

/-- Witness for **C7**: the round trip on the freshly booted state, with
"svm" as the unsupported identifier. -/
theorem C7_select_then_active_witness :
    model_active (model_select freshState "svm") = "logistic" :=
  (C7_select_then_active freshState "svm").2.2 (by decide) (by decide)

/-- **C8**: reading the active selector when it was never written
(`JsonDoc.missing`) or when it fails to decode (`JsonDoc.corrupt`) silently
yields the default "logistic": `read_json` maps both situations to `none`
and `load_active` substitutes the default instead of raising. -/
theorem C8_load_active_default {α μ : Type} (s : SportState α μ)
    (h : s.files.active = JsonDoc.missing ∨ s.files.active = JsonDoc.corrupt) :
    (load_active s).mem.active_model = "logistic" := by
  rcases h with h | h <;> simp [load_active, read_json, h]

/-- A sport whose persisted selector document is unreadable. -/
def corruptActiveState : SportState Nat Nat :=
  { files := { emptyFiles with active := .corrupt }, mem := bootMem }

/-- Witness for **C8**: recovery at the concrete corrupt-selector state. -/
theorem C8_load_active_default_witness :
    (load_active corruptActiveState).mem.active_model = "logistic" :=
  C8_load_active_default corruptActiveState (Or.inr rfl)

/-! ## Raw records, outcome labels and derived features (training.py) -/

/-- A row of the per-sport match dataset (the RawMatchRecord fields that feed
training; the date and team-name columns play no numeric role). Python typing
is kept: goals/injuries/shots are ints, the rest floats. -/
structure RawMatchRecord where
  goals_a : Nat
  goals_b : Nat
  strength_a : ℚ
  strength_b : ℚ
  form_a : ℚ
  form_b : ℚ
  xg_a : ℚ
  xg_b : ℚ
  injuries_a : Int
  injuries_b : Int
  shots_a : Int
  shots_b : Int
  poss_a : ℚ
  poss_b : ℚ

/-- `build_dataset`'s outcome column: home_win / away_win / draw from the
goal counts. -/
def outcome (r : RawMatchRecord) : String :=
  if r.goals_a > r.goals_b then "home_win"
  else if r.goals_a < r.goals_b then "away_win"
  else "draw"

/-- The 18-column feature row: the 12 base fields plus the 6 derived
differences of `add_derived_features`. -/
structure FeatureRow where
  strength_a : ℚ
  strength_b : ℚ
  form_a : ℚ
  form_b : ℚ
  xg_a : ℚ
  xg_b : ℚ
  injuries_a : Int
  injuries_b : Int
  shots_a : Int
  shots_b : Int
  poss_a : ℚ
  poss_b : ℚ
  strength_diff : ℚ
  form_diff : ℚ
  xg_diff : ℚ
  injuries_diff : Int
  shots_diff : Int
  poss_diff : ℚ
deriving DecidableEq

/-- `add_derived_features` (training.py): each `*_diff` column is the a-side
column minus the b-side column. -/
def add_derived_features (r : RawMatchRecord) : FeatureRow :=
  { strength_a := r.strength_a
    strength_b := r.strength_b
    form_a := r.form_a
    form_b := r.form_b
    xg_a := r.xg_a
    xg_b := r.xg_b
    injuries_a := r.injuries_a
    injuries_b := r.injuries_b
    shots_a := r.shots_a
    shots_b := r.shots_b
    poss_a := r.poss_a
    poss_b := r.poss_b
    strength_diff := r.strength_a - r.strength_b
    form_diff := r.form_a - r.form_b
    xg_diff := r.xg_a - r.xg_b
    injuries_diff := r.injuries_a - r.injuries_b
    shots_diff := r.shots_a - r.shots_b
    poss_diff := r.poss_a - r.poss_b }

/-- The body of a POST /predict request (service.py `PredictRequest`). -/
structure PredictRequest where
  strengthA : ℚ
  strengthB : ℚ
  formA : ℚ
  formB : ℚ
  xgA : ℚ
  xgB : ℚ
  injuriesA : Int
  injuriesB : Int
  shotsA : Int
  shotsB : Int
  possessionA : ℚ
  possessionB : ℚ

/-- The `features` dictionary assembled by `predict` (service.py lines
319-338) for a request, including the six inline `*_diff` computations. -/
def predict_features (p : PredictRequest) : FeatureRow :=
  { strength_a := p.strengthA
    strength_b := p.strengthB
    form_a := p.formA
    form_b := p.formB
    xg_a := p.xgA
    xg_b := p.xgB
    injuries_a := p.injuriesA
    injuries_b := p.injuriesB
    shots_a := p.shotsA
    shots_b := p.shotsB
    poss_a := p.possessionA
    poss_b := p.possessionB
    strength_diff := p.strengthA - p.strengthB
    form_diff := p.formA - p.formB
    xg_diff := p.xgA - p.xgB
    injuries_diff := p.injuriesA - p.injuriesB
    shots_diff := p.shotsA - p.shotsB
    poss_diff := p.possessionA - p.possessionB }

/-- **C9**: in both the training-side feature table and the predict-side
feature vector, each of the six derived fields equals the a-side base value
minus the b-side base value. -/
theorem C9_derived_diffs (r : RawMatchRecord) (p : PredictRequest) :
    ((add_derived_features r).strength_diff = r.strength_a - r.strength_b ∧
     (add_derived_features r).form_diff = r.form_a - r.form_b ∧
     (add_derived_features r).xg_diff = r.xg_a - r.xg_b ∧
     (add_derived_features r).injuries_diff = r.injuries_a - r.injuries_b ∧
     (add_derived_features r).shots_diff = r.shots_a - r.shots_b ∧
     (add_derived_features r).poss_diff = r.poss_a - r.poss_b) ∧
    ((predict_features p).strength_diff = p.strengthA - p.strengthB ∧
     (predict_features p).form_diff = p.formA - p.formB ∧
     (predict_features p).xg_diff = p.xgA - p.xgB ∧
     (predict_features p).injuries_diff = p.injuriesA - p.injuriesB ∧
     (predict_features p).shots_diff = p.shotsA - p.shotsB ∧
     (predict_features p).poss_diff = p.possessionA - p.possessionB) :=
  ⟨⟨rfl, rfl, rfl, rfl, rfl, rfl⟩, ⟨rfl, rfl, rfl, rfl, rfl, rfl⟩⟩

/-! ## Training (training.py, `train_model`)

`train_model` builds the dataset (outcome column + derived features), runs
the label-stratified 75/25 `train_test_split`, fits the pipeline, evaluates,
and only then writes the model artifact and metrics document. The split is
performed by the scikit-learn library, whose stratified splitter raises a
ValueError — the spec's InsufficientDataError — as soon as the least
populated class has fewer than 2 members, i.e. when some outcome label
occurs exactly once. That failure happens before `joblib.dump` and the
metrics write, so the store is untouched. The fitted pipeline itself is
opaque; it is a deterministic function of the dataset and the algorithm, so
the artifact is modelled as that pair. -/

def has_singleton_class (labels : List String) : Bool :=
  labels.any (fun l => labels.count l == 1)

structure TrainedModel where
  algo : String
  trainData : List (FeatureRow × String)
deriving DecidableEq

structure MetricsDoc where
  rows : Nat
  model : String
deriving DecidableEq

/-- The on-disk pair written by one `train_model` call: the artifact at
`model_path` and the document at `metrics_path`. -/
structure TrainStore where
  modelArtifact : Option TrainedModel
  metricsDoc : Option MetricsDoc
deriving DecidableEq

inductive TrainError where
  | insufficientData : TrainError
deriving DecidableEq

def train_model (records : List RawMatchRecord) (store : TrainStore)
    (algo : String) : TrainStore × Except TrainError MetricsDoc :=
  let labels := records.map outcome
  let feats := records.map add_derived_features
  if has_singleton_class labels then
    (store, .error .insufficientData)
  else
    let metrics : MetricsDoc := { rows := records.length, model := algo }
    ({ modelArtifact := some { algo := algo, trainData := feats.zip labels },
       metricsDoc := some metrics },
     .ok metrics)

/-- **C5**: training on a dataset in which some outcome class has exactly one
row fails with InsufficientDataError, and neither a model artifact nor a
metrics document is written: the store after the failed call is exactly the
prior store. -/
theorem C5_train_singleton_class (records : List RawMatchRecord)
    (store : TrainStore) (algo : String)
    (h : ∃ l ∈ records.map outcome, (records.map outcome).count l = 1) :
    (train_model records store algo).1 = store ∧
    (train_model records store algo).2 = .error .insufficientData := by
  have hb : has_singleton_class (records.map outcome) = true := by
    rw [has_singleton_class, List.any_eq_true]
    obtain ⟨l, hl, hc⟩ := h
    exact ⟨l, hl, by simp [hc]⟩
  rw [train_model]
  simp [hb]

/-- A single drawn match: its outcome class "draw" has exactly one row. -/
def singletonRecord : RawMatchRecord :=
  { goals_a := 1, goals_b := 1, strength_a := 70, strength_b := 70,
    form_a := 1/2, form_b := 1/2, xg_a := 1, xg_b := 1,
    injuries_a := 1, injuries_b := 1, shots_a := 10, shots_b := 10,
    poss_a := 50, poss_b := 50 }

/-- A prior artifact under the same key, to observe that it is unchanged. -/
def priorStore : TrainStore :=
  { modelArtifact := some { algo := "logistic", trainData := [] },
    metricsDoc := some { rows := 240, model := "logistic" } }

/-- Witness for **C5**: the one-row dataset (class "draw" has exactly 1 row)
fails and leaves the prior artifact in place. -/
theorem C5_train_singleton_class_witness :
    (train_model [singletonRecord] priorStore "rf").1 = priorStore ∧
    (train_model [singletonRecord] priorStore "rf").2 =
      .error TrainError.insufficientData :=
  C5_train_singleton_class [singletonRecord] priorStore "rf"
    ⟨"draw", by simp [singletonRecord, outcome], by simp [singletonRecord, outcome]⟩

/-! ## Fallback prediction (service.py, `fallback_prediction`)

Used by `predict` when no model is loaded for the sport. -/

structure Baseline where
  mean_a : ℚ
  mean_b : ℚ
  max_score : ℚ
  poss_base : ℚ
deriving DecidableEq

/-- `SPORT_BASELINES` (service.py lines 32-38). -/
def SPORT_BASELINES : List (String × Baseline) :=
  [("football", ⟨29/20, 6/5, 6, 50⟩),
   ("basketball", ⟨101, 97, 140, 50⟩),
   ("tennis", ⟨2, 9/5, 3, 50⟩),
   ("rugby", ⟨24, 20, 55, 50⟩),
   ("handball", ⟨31, 28, 45, 50⟩)]

/-- Python's `round(x, 2)`. Mathlib's `round` rounds half away from zero
upward while Python rounds half to even, but the two agree except at exact
half-of-a-hundredth ties, which no baseline sum produces (every
`mean_a + mean_b` above already has at most two decimals). -/
def round2 (q : ℚ) : ℚ :=
  ((round (q * 100) : ℤ) : ℚ) / 100

structure FallbackResult where
  prediction : String
  confidence : ℚ
  score : ℚ
  prob_home : ℚ
  prob_draw : ℚ
  prob_away : ℚ
  model : String
  sport : String
  expected_points : ℚ
deriving DecidableEq

/-- `fallback_prediction(payload, sport)`. `base` is
`SPORT_BASELINES[sport]`, which the caller guarantees exists because the
sport has been normalized; it is passed explicitly here. The `probabilities`
dictionary is flattened into the three `prob_*` fields. -/
def fallback_prediction (payload : PredictRequest) (sport : String)
    (base : Baseline) : FallbackResult :=
  let prediction :=
    if payload.strengthA ≥ payload.strengthB then "home_win" else "away_win"
  let home : ℚ := if prediction = "home_win" then 58/100 else 21/100
  let away : ℚ := if prediction = "away_win" then 58/100 else 21/100
  let draw : ℚ := max (8/100) (1 - home - away)
  { prediction := prediction
    confidence := max home away
    score := payload.strengthA - payload.strengthB
    prob_home := home
    prob_draw := draw
    prob_away := away
    model := "fallback-" ++ sport
    sport := sport
    expected_points := round2 (base.mean_a + base.mean_b) }

theorem fallback_prediction_of_ge (payload : PredictRequest) (sport : String)
    (base : Baseline) (h : payload.strengthA ≥ payload.strengthB) :
    fallback_prediction payload sport base =
    { prediction := "home_win", confidence := 58/100,
      score := payload.strengthA - payload.strengthB,
      prob_home := 58/100, prob_draw := 21/100, prob_away := 21/100,
      model := "fallback-" ++ sport, sport := sport,
      expected_points := round2 (base.mean_a + base.mean_b) } := by
  unfold fallback_prediction
  rw [if_pos h]
  have hmax1 : max ((58:ℚ)/100) (21/100) = 58/100 := by
    rw [max_eq_left]
    norm_num
  have hmax2 : max ((8:ℚ)/100) (1 - 58/100 - 21/100) = 21/100 := by
    rw [max_eq_right] <;> norm_num
  simp only [if_pos rfl, if_neg (by decide : ¬ ("home_win" : String) = "away_win"),
    ite_true, hmax1, hmax2]

theorem fallback_prediction_of_lt (payload : PredictRequest) (sport : String)
    (base : Baseline) (h : payload.strengthA < payload.strengthB) :
    fallback_prediction payload sport base =
    { prediction := "away_win", confidence := 58/100,
      score := payload.strengthA - payload.strengthB,
      prob_home := 21/100, prob_draw := 21/100, prob_away := 58/100,
      model := "fallback-" ++ sport, sport := sport,
      expected_points := round2 (base.mean_a + base.mean_b) } := by
  unfold fallback_prediction
  rw [if_neg (not_le.mpr h)]
  have hmax1 : max ((21:ℚ)/100) (58/100) = 58/100 := by
    rw [max_eq_right]
    norm_num
  have hmax2 : max ((8:ℚ)/100) (1 - 21/100 - 58/100) = 21/100 := by
    rw [max_eq_right] <;> norm_num
  simp only [if_pos rfl, if_neg (by decide : ¬ ("away_win" : String) = "home_win"),
    ite_true, hmax1, hmax2]

theorem fallback_model_ne (sport : String) :
    ("fallback-" ++ sport) ≠ "logistic" ∧ ("fallback-" ++ sport) ≠ "rf" := by
  have h9 : ("fallback-" : String).length = 9 := rfl
  have h8 : ("logistic" : String).length = 8 := rfl
  have h2 : ("rf" : String).length = 2 := rfl
  constructor
  · intro h
    have hl := congrArg String.length h
    rw [String.length_append, h9, h8] at hl
    omega
  · intro h
    have hl := congrArg String.length h
    rw [String.length_append, h9, h2] at hl
    omega

/-- **C6**: the no-model fallback declares home_win when
strengthA ≥ strengthB and away_win otherwise, its confidence lies in
[0.55, 0.58], the three class probabilities sum to 1 (within 1e-6), and the
model identifier (`"fallback-" ++ sport`) differs from "logistic" and "rf". -/
theorem C6_fallback_contract (payload : PredictRequest) (sport : String)
    (base : Baseline) :
    (payload.strengthA ≥ payload.strengthB →
      (fallback_prediction payload sport base).prediction = "home_win") ∧
    (payload.strengthA < payload.strengthB →
      (fallback_prediction payload sport base).prediction = "away_win") ∧
    (55/100 ≤ (fallback_prediction payload sport base).confidence ∧
      (fallback_prediction payload sport base).confidence ≤ 58/100) ∧
    |(fallback_prediction payload sport base).prob_home +
      (fallback_prediction payload sport base).prob_draw +
      (fallback_prediction payload sport base).prob_away - 1| ≤ 1/1000000 ∧
    (fallback_prediction payload sport base).model ≠ "logistic" ∧
    (fallback_prediction payload sport base).model ≠ "rf" := by
  by_cases hab : payload.strengthA ≥ payload.strengthB
  · rw [fallback_prediction_of_ge payload sport base hab]
    exact ⟨fun _ => rfl, fun hlt => absurd hab (not_le.mpr hlt),
      ⟨by norm_num, by norm_num⟩, by norm_num,
      (fallback_model_ne sport).1, (fallback_model_ne sport).2⟩
  · rw [fallback_prediction_of_lt payload sport base (not_le.mp hab)]
    exact ⟨fun hge => absurd hge hab, fun _ => rfl,
      ⟨by norm_num, by norm_num⟩, by norm_num,
      (fallback_model_ne sport).1, (fallback_model_ne sport).2⟩

/-- The default values of service.py's `PredictRequest`. -/
def samplePayload : PredictRequest :=
  { strengthA := 75, strengthB := 70, formA := 13/20, formB := 31/50,
    xgA := 17/10, xgB := 3/2, injuriesA := 1, injuriesB := 1,
    shotsA := 14, shotsB := 12, possessionA := 52, possessionB := 48 }

def footballBaseline : Baseline := ⟨29/20, 6/5, 6, 50⟩

theorem footballBaseline_lookup :
    SPORT_BASELINES.lookup "football" = some footballBaseline := rfl

/-- Witness for **C6**: the default request (75 vs 70) for football. -/
theorem C6_fallback_contract_witness :
    (fallback_prediction samplePayload "football" footballBaseline).prediction
      = "home_win" :=
  (C6_fallback_contract samplePayload "football" footballBaseline).1
    (by norm_num [samplePayload])

/-- **C10**: the fallback score is the raw strength difference
strengthA − strengthB (not a difference of probabilities, hence not confined
to [-1,1]), and the probability triple is always exactly 0.58 for the
declared outcome and 0.21 for each of the two remaining classes, whatever
the input values. -/
theorem C10_fallback_score_probs (payload : PredictRequest) (sport : String)
    (base : Baseline) :
    (fallback_prediction payload sport base).score
      = payload.strengthA - payload.strengthB ∧
    (payload.strengthA ≥ payload.strengthB →
      (fallback_prediction payload sport base).prob_home = 58/100 ∧
      (fallback_prediction payload sport base).prob_draw = 21/100 ∧
      (fallback_prediction payload sport base).prob_away = 21/100) ∧
    (payload.strengthA < payload.strengthB →
      (fallback_prediction payload sport base).prob_home = 21/100 ∧
      (fallback_prediction payload sport base).prob_draw = 21/100 ∧
      (fallback_prediction payload sport base).prob_away = 58/100) := by
  refine ⟨rfl, ?_, ?_⟩
  · intro h
    rw [fallback_prediction_of_ge payload sport base h]
    exact ⟨rfl, rfl, rfl⟩
  · intro h
    rw [fallback_prediction_of_lt payload sport base h]
    exact ⟨rfl, rfl, rfl⟩

/-- Witness for **C10**: at the default request the fallback score is
75 − 70 = 5, already outside [-1,1], and the draw probability is 0.21. -/
theorem C10_fallback_score_probs_witness :
    (fallback_prediction samplePayload "football" footballBaseline).score
      = samplePayload.strengthA - samplePayload.strengthB ∧
    (fallback_prediction samplePayload "football" footballBaseline).prob_draw
      = 21/100 :=
  ⟨(C10_fallback_score_probs samplePayload "football" footballBaseline).1,
   ((C10_fallback_score_probs samplePayload "football" footballBaseline).2.1
      (by norm_num [samplePayload])).2.1⟩

end FootballAI
